import Mathlib

/-!
Shallow embedding of the computational core of the iRacing telemetry-analysis
repository, together with proofs settling the frozen claims about it.

Conventions used throughout:
* Python/NumPy floating-point values are idealised as exact real numbers (`ℝ`)
  where a square root occurs (standard deviation), and as exact rationals (`ℚ`)
  in the threshold state machines, where every operation is rational.
* A Python function that can raise an exception that escapes to the caller is
  embedded with an `Except` result; exceptions that the source catches locally
  are folded into the value-level outcome (`none`, an error dictionary, ...).
* External effects (file system, subprocesses, the `irsdk` import) are passed
  in explicitly as boolean/numeric fields of an environment record; each field
  documents the concrete observable of the source it stands for.
-/

/-! ## List statistics (NumPy `mean` / `std` on ℝ) -/

/-- `np.mean(l)`: sum divided by length (junk value `0` on the empty list,
which the callers below always guard against, as the source does). -/
noncomputable def listMean (l : List ℝ) : ℝ := l.sum / l.length

/-- `np.std(l)`: population standard deviation,
`sqrt(mean((x - mean l)^2))`. -/
noncomputable def listStd (l : List ℝ) : ℝ :=
  Real.sqrt ((l.map (fun x => (x - listMean l) ^ 2)).sum / l.length)

/-- `min(l)` of a nonempty Python list, with junk value `0` for `[]`. -/
noncomputable def listMinD (l : List ℝ) : ℝ :=
  match l with
  | [] => 0
  | a :: t => t.foldl min a

/-! ## Metric derivation engine (`cosworth_pi_analysis.py`) -/

/-- `CosWorthPiAnalysis._calculate_consistency_coefficient`:
fewer than 2 laps returns `0.0`; otherwise `cv = np.std/np.mean` and the
result is `max(0.0, 1.0 - (cv * 10))`. -/
noncomputable def calculate_consistency_coefficient (lapTimes : List ℝ) : ℝ :=
  if lapTimes.length < 2 then 0
  else max 0 (1 - listStd lapTimes / listMean lapTimes * 10)

/-- The consistency formula as the specification words it:
`1 − (stddev(lapTimes) / mean(lapTimes))`, clamped to the interval [0,1].
Written from the spec sentence, to be compared against the source embedding
`calculate_consistency_coefficient`. -/
noncomputable def spec_consistency_coefficient (lapTimes : List ℝ) : ℝ :=
  min 1 (max 0 (1 - listStd lapTimes / listMean lapTimes))

/-- Result of a derived metric: either a clearly tagged "insufficient data"
dictionary (`{'status': 'insufficient_data'}` in the source) or a value. -/
inductive MetricResult (α : Type) where
  | insufficientData : MetricResult α
  | ok : α → MetricResult α
deriving DecidableEq

/-- Least-squares slope of degree-1 `np.polyfit(range(n), ys, 1)`:
`(n·Σxy − Σx·Σy) / (n·Σx² − (Σx)²)` with `x = 0, 1, ..., n-1`. -/
noncomputable def fitSlope (ys : List ℝ) : ℝ :=
  let n : ℝ := ys.length
  let xs : List ℝ := (List.range ys.length).map (fun k => (k : ℝ))
  let sx := xs.sum
  let sy := ys.sum
  let sxy := ((xs.zip ys).map (fun p => p.1 * p.2)).sum
  let sxx := (xs.map (fun x => x ^ 2)).sum
  (n * sxy - sx * sy) / (n * sxx - sx ^ 2)

/-- `CosWorthPiAnalysis._analyze_pace_degradation`: fewer than 5 laps yields
the tagged insufficient-data dictionary, otherwise the linear-fit slope. -/
noncomputable def analyze_pace_degradation (lapTimes : List ℝ) : MetricResult ℝ :=
  if lapTimes.length < 5 then .insufficientData else .ok (fitSlope lapTimes)

/-- The numeric fields of the dictionary built by
`CosWorthPiAnalysis._calculate_performance_metrics` that the claims are
about (fastest/average lap, standard deviation, consistency coefficient and
the nested pace-degradation result). -/
structure PerformanceMetrics where
  fastest_lap : ℝ
  average_lap_time : ℝ
  standard_deviation : ℝ
  consistency_coefficient : ℝ
  pace_degradation : MetricResult ℝ

/-- `CosWorthPiAnalysis._calculate_performance_metrics`: an empty lap-time
list returns `{'status': 'insufficient_data'}` before any statistic is
touched; otherwise the metric dictionary is computed. -/
noncomputable def calculate_performance_metrics (lapTimes : List ℝ) :
    MetricResult PerformanceMetrics :=
  if lapTimes.isEmpty then .insufficientData
  else .ok
    { fastest_lap := listMinD lapTimes
      average_lap_time := listMean lapTimes
      standard_deviation := listStd lapTimes
      consistency_coefficient := calculate_consistency_coefficient lapTimes
      pace_degradation := analyze_pace_degradation lapTimes }

/-! ## Lap splitting (the Node script embedded in `ibt_parser.py`,
`parseIBTFile` lap analysis) -/

/-- One element of `sampleData` in the Node script: the `Lap` and
`SessionTime` fields of a sample, each possibly `undefined`. -/
structure JSample where
  lap : Option ℤ
  sessionTime : Option ℚ
deriving DecidableEq

/-- JavaScript `Map.prototype.set`: overwrite the value when the key is
already present (keeping insertion order), otherwise append. -/
def mapSet (m : List (ℤ × ℚ)) (k : ℤ) (v : ℚ) : List (ℤ × ℚ) :=
  if m.any (fun p => p.1 == k) then
    m.map (fun p => if p.1 = k then (k, v) else p)
  else m ++ [(k, v)]

/-- The mutable state of the lap-analysis loop in the Node script:
`currentLap` (initially `-1`), `lapStartTime` (initially `0`) and the
`laps` map. -/
structure JLapState where
  currentLap : ℤ
  lapStartTime : ℚ
  laps : List (ℤ × ℚ)
deriving DecidableEq

/-- One iteration of `sampleData.forEach(...)` in the Node script: on a lap
index change, close the previous lap (only when `currentLap >= 0` and the
sample's `SessionTime` is defined) with the time delta since the previous
boundary, then start the new lap (`sample.SessionTime || 0` — with rational
times, `undefined` maps to `0` and a literal `0` is already `0`). -/
def lapStep (st : JLapState) (sample : JSample) : JLapState :=
  match sample.lap with
  | none => st
  | some lp =>
    if lp ≠ st.currentLap then
      let laps' :=
        match sample.sessionTime with
        | some t =>
          if 0 ≤ st.currentLap then mapSet st.laps st.currentLap (t - st.lapStartTime)
          else st.laps
        | none => st.laps
      { currentLap := lp
        lapStartTime := sample.sessionTime.getD 0
        laps := laps' }
    else st

/-- The lap analysis of the Node script over the retained samples: the final
`laps` map as a `(lapNumber, lapTime)` list. A lap still open when the
stream ends is never entered into the map. -/
def analyzeLaps (samples : List JSample) : List (ℤ × ℚ) :=
  (samples.foldl lapStep ⟨-1, 0, []⟩).laps

/-- The 10-sample stream of end-to-end scenario 1: lap indices
`[0,0,0,1,1,1,2,2,2,2]`, session time increasing by `1.0` per sample. -/
def c5samples : List JSample :=
  [⟨some 0, some 0⟩, ⟨some 0, some 1⟩, ⟨some 0, some 2⟩,
   ⟨some 1, some 3⟩, ⟨some 1, some 4⟩, ⟨some 1, some 5⟩,
   ⟨some 2, some 6⟩, ⟨some 2, some 7⟩, ⟨some 2, some 8⟩, ⟨some 2, some 9⟩]

/-! ## Lap & zone segmenter (`advanced_metrics.py`) -/

/-- The two-state threshold scan shared by `_identify_corners` and
`_identify_braking_zones`: walking the value stream with index `i`, enter a
segment when the value exceeds `thr` (state `some start`), close it when the
value falls back to `≤ thr`, and emit the `(start, i)` index pair only when
`i - start > minSpan`; a segment still open when the stream ends is
discarded.  The source hard-codes `thr = 0.3, minSpan = 5` for corners and
`thr = 10, minSpan = 3` for braking zones; the spec treats both numbers as
configuration, so they are parameters here. -/
def spanScan (thr : ℚ) (minSpan : ℕ) : List ℚ → ℕ → Option ℕ → List (ℕ × ℕ)
  | [], _, _ => []
  | a :: rest, i, none =>
    if thr < a then spanScan thr minSpan rest (i + 1) (some i)
    else spanScan thr minSpan rest (i + 1) none
  | a :: rest, i, some s =>
    if a ≤ thr then
      if minSpan < i - s then (s, i) :: spanScan thr minSpan rest (i + 1) none
      else spanScan thr minSpan rest (i + 1) none
    else spanScan thr minSpan rest (i + 1) (some s)

/-- Lower bound on the start index of any pair emitted from a scan state:
from state `none` at index `i` every emitted pair starts at `i` or later;
from state `some s` it starts at `min s i` or later. -/
def spanLo (st : Option ℕ) (i : ℕ) : ℕ :=
  match st with
  | none => i
  | some s => min s i

/-- The record built by `_analyze_corner_section` for one emitted corner,
extended with the `(start, end)` indices of the emission point (the source
keeps them implicitly in the loop variables). -/
structure CornerData where
  startIdx : ℕ
  endIdx : ℕ
  entry_speed : ℚ
  apex_speed : ℚ
  exit_speed : ℚ
  max_lateral_g : ℚ
  corner_duration : ℕ
deriving DecidableEq

/-- `_analyze_corner_section(speed, lateral_g, start, end)`: slice both lists
to `[start:end]`; on an empty slice return `None`; otherwise entry/exit are
the boundary speeds, apex speed is the minimum speed in the slice, and the
peak lateral G is the maximum of the G slice. -/
def analyze_corner_section (speed lateral_g : List ℚ) (s e : ℕ) :
    Option CornerData :=
  match (speed.drop s).take (e - s), (lateral_g.drop s).take (e - s) with
  | a :: spds, b :: gs =>
    some { startIdx := s
           endIdx := e
           entry_speed := a
           apex_speed := spds.foldl min a
           exit_speed := spds.getLastD a
           max_lateral_g := gs.foldl max b
           corner_duration := e - s }
  | _, _ => none

/-- `_identify_corners(speed, lateral_g, steering)`: run the threshold state
machine over the lateral-G stream and analyze each emitted span (the
`steering` argument is unused by the source loop). -/
def identify_corners (speed lateral_g : List ℚ) (thr : ℚ) (minSpan : ℕ) :
    List CornerData :=
  (spanScan thr minSpan lateral_g 0 none).filterMap
    (fun p => analyze_corner_section speed lateral_g p.1 p.2)

/-- The record built by `_analyze_braking_zone` for one emitted braking zone,
extended with the `(start, end)` indices of the emission point. -/
structure BrakingZoneData where
  startIdx : ℕ
  endIdx : ℕ
  entry_speed : ℚ
  exit_speed : ℚ
  max_pressure : ℚ
  max_deceleration : ℚ
  braking_distance : ℕ
  braking_duration : ℕ
deriving DecidableEq

/-- `_analyze_braking_zone(speed, brake_pressure, longitudinal_g, start, end)`:
slice all three lists to `[start:end]`; `None` when the speed or pressure
slice is empty (explicit guard) or the G slice is empty (`min(zone_g)` would
raise and the bare `except` returns `None`). -/
def analyze_braking_zone (speed brake_pressure longitudinal_g : List ℚ)
    (s e : ℕ) : Option BrakingZoneData :=
  match (speed.drop s).take (e - s), (brake_pressure.drop s).take (e - s),
      (longitudinal_g.drop s).take (e - s) with
  | a :: spds, b :: prs, c :: gs =>
    some { startIdx := s
           endIdx := e
           entry_speed := a
           exit_speed := spds.getLastD a
           max_pressure := prs.foldl max b
           max_deceleration := |gs.foldl min c|
           braking_distance := (spds.length + 1) * 20
           braking_duration := e - s }
  | _, _, _ => none

/-- `_identify_braking_zones(speed, brake_pressure, longitudinal_g)`: the same
threshold state machine keyed on brake pressure. -/
def identify_braking_zones (speed brake_pressure longitudinal_g : List ℚ)
    (thr : ℚ) (minSpan : ℕ) : List BrakingZoneData :=
  (spanScan thr minSpan brake_pressure 0 none).filterMap
    (fun p => analyze_braking_zone speed brake_pressure longitudinal_g p.1 p.2)

/-! ## Corner classification (`AdvancedMetrics.corner_types` and
`_analyze_cornering`) -/

/-- `AdvancedMetrics.corner_types`: named entry-speed ranges. -/
def corner_types : List (String × ℚ × ℚ) :=
  [("hairpin", (0, 60)), ("slow", (60, 100)), ("medium", (100, 150)),
   ("fast", (150, 200)), ("very_fast", (200, 300))]

/-- The per-class filter of `_analyze_cornering`:
`[c for c in corners if min_speed <= c['entry_speed'] <= max_speed]`. -/
def cornersOfType (corners : List CornerData) (lo hi : ℚ) : List CornerData :=
  corners.filter (fun c => decide (lo ≤ c.entry_speed ∧ c.entry_speed ≤ hi))

/-- Sum over all classes of the per-class `'count'` statistic. -/
def classCountSum (corners : List CornerData) : ℕ :=
  (corner_types.map (fun t => (cornersOfType corners t.2.1 t.2.2).length)).sum

/-! ## Decoder strategy chain (`real_ibt_parser.py`) -/

/-- The observable part of the dictionary each parsing method returns: its
`'method'` provenance tag and its `'success'` flag. -/
structure ParseOutcome where
  method : String
  success : Bool
deriving DecidableEq

/-- The external observables the three parsing methods of `RealIBTParser`
depend on.  Each field stands for one concrete effect of the source:
* `irsdkImportOk` — `import irsdk` succeeds (on failure the method returns
  `None`);
* `fileReadable` — `open(file_path, 'rb')` succeeds (otherwise the broad
  `except` returns `None`);
* `sessionExtractOk` — `_extract_session_from_binary` returns a non-empty
  dictionary (it returns `{}` only when it raises internally);
* `nodeScriptExists`, `nodeExitZero`, `nodeJsonExists` — the fallback
  script is present, the subprocess exits 0 within the timeout, and the
  expected `_parsed.json` file appears. -/
structure ParseEnv where
  irsdkImportOk : Bool
  fileReadable : Bool
  sessionExtractOk : Bool
  nodeScriptExists : Bool
  nodeExitZero : Bool
  nodeJsonExists : Bool
deriving DecidableEq

/-- `RealIBTParser._parse_with_irsdk`: when the import succeeds the method
always returns a dictionary with `'success': False` (pyirsdk cannot read
IBT files); any failure path returns `None`. -/
def parse_with_irsdk (env : ParseEnv) : Option ParseOutcome :=
  if env.irsdkImportOk then some ⟨"pyirsdk", false⟩ else none

/-- `RealIBTParser._parse_with_binary_analysis`: reads the header and sets
`'success': True` exactly when the extracted session dictionary is
non-empty; an unreadable file returns `None`. -/
def parse_with_binary_analysis (env : ParseEnv) : Option ParseOutcome :=
  if env.fileReadable then some ⟨"binary_analysis", env.sessionExtractOk⟩
  else none

/-- `RealIBTParser._parse_with_node_fallback`: succeeds only when the script
exists, the subprocess exits 0, and the JSON output file exists. -/
def parse_with_node_fallback (env : ParseEnv) : Option ParseOutcome :=
  if env.nodeScriptExists && env.nodeExitZero && env.nodeJsonExists then
    some ⟨"node_js_parser", true⟩
  else none

/-- The loop of `RealIBTParser.parse_ibt_file`: return the first method
result that is truthy and has a truthy `'success'` flag; a method that
raises is caught and skipped (already folded into `none` results). -/
def firstSuccess : List (Option ParseOutcome) → Option ParseOutcome
  | [] => none
  | none :: rest => firstSuccess rest
  | some r :: rest => if r.success then some r else firstSuccess rest

/-- `RealIBTParser.parse_ibt_file`: try the three methods in their fixed
registration order and return the first success, `None` when all fail. -/
def parse_ibt_file (env : ParseEnv) : Option ParseOutcome :=
  firstSuccess
    [parse_with_irsdk env, parse_with_binary_analysis env,
     parse_with_node_fallback env]

/-! ## Pipeline entry point (`enhanced_telemetry_processor.py`) -/

/-- The dedup key: `md5(f"{file_path}:{stat.st_mtime}:{stat.st_size}")`.
The md5 digest of the colon-joined string is idealised as the triple
itself (md5 is treated as collision-free, as the dedup logic assumes). -/
abbrev FileHash := String × ℤ × ℕ

/-- The environment of one `process_telemetry_file` call: the path, whether
`Path(file_path).stat()` succeeds (the file exists), its metadata, and the
observables of the decoder chain it invokes. -/
structure ProcEnv where
  path : String
  fileExists : Bool
  mtime : ℤ
  size : ℕ
  parseEnv : ParseEnv
deriving DecidableEq

/-- `EnhancedTelemetryProcessor._get_file_hash`: `Path(file_path).stat()`
raises `FileNotFoundError` when the file does not exist; otherwise the
dedup key is built from path, modification time and size. -/
def get_file_hash (env : ProcEnv) : Except String FileHash :=
  if env.fileExists then .ok (env.path, env.mtime, env.size)
  else .error "FileNotFoundError"

/-- The fields of the `processed_data` dictionary relevant to the claims:
its dedup key (`'id'`) and the provenance of the parse that produced it. -/
structure SessionData where
  id : FileHash
  parsing_method : String
deriving DecidableEq

/-- `EnhancedTelemetryProcessor.process_telemetry_file`, with the
`processed_files` set passed explicitly.  The `Except` layer records
whether an exception escapes the call: `_get_file_hash` runs BEFORE the
`try:` block, so its `FileNotFoundError` propagates to the caller, while
everything after line 45 is wrapped in `try/except` and degrades to a
`None` return.  On a successful parse the hash is added to the set and the
session dictionary is returned; on a parse failure the hash is NOT added
and `None` is returned. -/
def process_telemetry_file (env : ProcEnv) (processed : List FileHash) :
    Except String (Option SessionData × List FileHash) :=
  match get_file_hash env with
  | .error e => .error e
  | .ok h =>
    if h ∈ processed then .ok (none, processed)
    else
      match parse_ibt_file env.parseEnv with
      | none => .ok (none, processed)
      | some r =>
        if r.success then .ok (some ⟨h, r.method⟩, h :: processed)
        else .ok (none, processed)

/-- The lateral-G input sequence of end-to-end scenario 2. -/
def c4_lateral_g : List ℚ := [0, 0, 1/2, 3/5, 2/5, 1/5, 0, 0]

/-- A nonexistent path: `Path(file_path).stat()` raises, every decoder
observable is moot (the chain is never reached). -/
def c3_missing_env : ProcEnv :=
  ⟨"missing.ibt", false, 0, 0, ⟨false, false, false, false, false, false⟩⟩

/-- An existing but empty file: `stat()` succeeds with size 0, `open` and
`read` succeed (returning no bytes), and `_extract_session_from_binary`
still returns a non-empty dictionary (it always inserts the
`'binary_analysis'` key, and here also the filename-derived fields), so
binary analysis reports success. -/
def c3_empty_env : ProcEnv :=
  ⟨"porsche992cup_roadatlanta full 2025-09-13 13-27-17.ibt", true, 0, 0,
   ⟨false, true, true, false, false, false⟩⟩

/-- Environment for the idempotence witness: an existing file whose parse
succeeds through binary analysis. -/
def c8_env : ProcEnv :=
  ⟨"a.ibt", true, 0, 100, ⟨false, true, true, false, false, false⟩⟩

/-- A speed stream for the corner-detector witnesses (the scenario fixes
only the lateral-G stream; speeds just have to be present). -/
def c7_speed : List ℚ := [100, 100, 80, 60, 70, 90, 100, 100]

/-- A lateral-G stream with one above-threshold burst (same shape as
scenario 2), used by the invariant witness. -/
def c7_lateral : List ℚ := [0, 0, 1/2, 3/5, 2/5, 1/5, 0, 0]

/-- A brake-pressure stream with one braking burst above the 10% threshold. -/
def c7_brake : List ℚ := [0, 0, 50, 50, 50, 50, 0, 0]

/-- A longitudinal-G stream with deceleration during the braking burst. -/
def c7_longG : List ℚ := [0, 0, -1, -1, -1, -1, 0, 0]

/-! ## Claim theorems -/

/-- C5: for the 10-sample stream with lap-index sequence
`[0,0,0,1,1,1,2,2,2,2]` and session time increasing by `1.0` per sample,
the lap splitter emits exactly the 2 closed laps — lap 0 (closed at the
transition after samples 0–2, lap time 3.0) and lap 1 (closed after
samples 3–5, lap time 3.0) — and lap 2, still open at end of stream, is
not in the emitted map. -/
theorem c5_scenario : analyzeLaps c5samples = [(0, 3), (1, 3)] := by
  norm_num [analyzeLaps, c5samples, lapStep, mapSet]

/-- C9: a metric whose required input list is empty yields the tagged
insufficient-data value — the performance-metrics dictionary for an empty
lap-time list, and the pace-degradation result for fewer than 5 laps — and
both embedded functions are total, so no exception aborts the session. -/
theorem c9_insufficient :
    (∀ lapTimes : List ℝ, lapTimes = [] →
      calculate_performance_metrics lapTimes = .insufficientData) ∧
    (∀ lapTimes : List ℝ, lapTimes.length < 5 →
      analyze_pace_degradation lapTimes = .insufficientData) := by
  constructor
  · rintro _ rfl
    rfl
  · intro l h
    rw [analyze_pace_degradation, if_pos h]

/-- Witness for C9 at concrete inputs: the empty lap list and a 3-lap list. -/
theorem c9_witness :
    calculate_performance_metrics ([] : List ℝ) = .insufficientData ∧
    analyze_pace_degradation [(88 : ℝ), 89, 90] = .insufficientData :=
  ⟨c9_insufficient.1 [] rfl, c9_insufficient.2 [(88 : ℝ), 89, 90] (by norm_num)⟩

/-- C2: strategy (a) never reports success (its result dictionary always
carries `'success': False`); whenever strategy (b) succeeds the chain
returns the `binary_analysis`-tagged result (never the `pyirsdk` tag); and
when strategy (b) does not succeed and strategy (c) fails, the chain
returns `None` — the decode-failure outcome. -/
theorem c2_chain (env : ParseEnv) :
    (∀ r, parse_with_irsdk env = some r → r.success = false) ∧
    (env.fileReadable = true → env.sessionExtractOk = true →
      parse_ibt_file env = some ⟨"binary_analysis", true⟩) ∧
    (¬(env.fileReadable = true ∧ env.sessionExtractOk = true) →
      parse_with_node_fallback env = none → parse_ibt_file env = none) := by
  obtain ⟨i, f, s, n1, n2, n3⟩ := env
  cases i <;> cases f <;> cases s <;> cases n1 <;> cases n2 <;> cases n3 <;>
    simp_all [parse_ibt_file, firstSuccess, parse_with_irsdk,
      parse_with_binary_analysis, parse_with_node_fallback]

/-- Witness for C2: a concrete environment where the `irsdk` import
succeeds (strategy (a) runs and fails) and binary analysis succeeds; the
chain returns the binary-heuristic provenance. -/
theorem c2_witness :
    parse_ibt_file ⟨true, true, true, false, false, false⟩ =
      some ⟨"binary_analysis", true⟩ :=
  (c2_chain ⟨true, true, true, false, false, false⟩).2.1 rfl rfl

/-- C3 (code bug): invoked on a path with no file behind it, the entry
point raises `FileNotFoundError` out of `_get_file_hash` (which runs
before the `try:` block) instead of returning a failure value; and invoked
on an existing empty file it returns a successful session result via the
filename-based binary analysis rather than a decode failure. -/
theorem c3_bug_eval :
    process_telemetry_file c3_missing_env [] = .error "FileNotFoundError" ∧
    process_telemetry_file c3_empty_env [] =
      .ok (some ⟨(c3_empty_env.path, 0, 0), "binary_analysis"⟩,
           [(c3_empty_env.path, 0, 0)]) := by
  constructor <;> rfl

/-- C8: when a call to the entry point returns a session result, the dedup
key is in the resulting processed set, and a second call on the same file
with unchanged path, modification time and size (the same environment)
returns no new session result and leaves the processed set unchanged. -/
theorem c8_idempotent (env : ProcEnv) (processed s2 : List FileHash)
    (d : SessionData)
    (h : process_telemetry_file env processed = .ok (some d, s2)) :
    d.id ∈ s2 ∧ process_telemetry_file env s2 = .ok (none, s2) := by
  obtain ⟨p, ex, mt, sz, pe⟩ := env
  cases ex with
  | false => simp [process_telemetry_file, get_file_hash] at h
  | true =>
    rw [process_telemetry_file,
      show get_file_hash ⟨p, true, mt, sz, pe⟩ = .ok (p, mt, sz) from rfl] at h
    dsimp only at h
    by_cases hmem : ((p, mt, sz) : FileHash) ∈ processed
    · rw [if_pos hmem] at h
      simp at h
    · rw [if_neg hmem] at h
      rcases hp : parse_ibt_file pe with _ | r
      · rw [hp] at h
        simp at h
      · rw [hp] at h
        dsimp only at h
        by_cases hs : r.success = true
        · rw [if_pos hs] at h
          rw [Except.ok.injEq, Prod.mk.injEq] at h
          obtain ⟨hd, hs2⟩ := h
          rw [Option.some.injEq] at hd
          subst hd
          subst hs2
          refine ⟨List.mem_cons_self _ _, ?_⟩
          rw [process_telemetry_file,
            show get_file_hash ⟨p, true, mt, sz, pe⟩ = .ok (p, mt, sz) from rfl]
          dsimp only
          rw [if_pos (List.mem_cons_self _ _)]
        · rw [if_neg hs] at h
          simp at h

/-- Witness for C8: processing `c8_env` from an empty store succeeds, and
the theorem applied to that run gives the recorded hash and the no-op
second call. -/
theorem c8_witness :
    (⟨("a.ibt", 0, 100), "binary_analysis"⟩ : SessionData).id ∈
      [(("a.ibt", 0, 100) : FileHash)] ∧
    process_telemetry_file c8_env [(("a.ibt", 0, 100) : FileHash)] =
      .ok (none, [(("a.ibt", 0, 100) : FileHash)]) :=
  c8_idempotent c8_env [] [(("a.ibt", 0, 100) : FileHash)]
    ⟨("a.ibt", 0, 100), "binary_analysis"⟩ rfl

/-! ### Statistics helper lemmas -/

lemma listMean_pair (a b : ℝ) : listMean [a, b] = (a + b) / 2 := by
  simp [listMean]

lemma listStd_pair (a b : ℝ) : listStd [a, b] = |a - b| / 2 := by
  have h : ([a, b].map (fun x => (x - listMean [a, b]) ^ 2)).sum
      / (([a, b].length : ℕ) : ℝ) = ((a - b) / 2) ^ 2 := by
    simp [listMean_pair]
    ring
  rw [listStd, h, Real.sqrt_sq_eq_abs, abs_div]
  norm_num

lemma listMean_pos (l : List ℝ) (hne : l ≠ []) (hpos : ∀ x ∈ l, 0 < x) :
    0 < listMean l := by
  have hlen : 0 < (l.length : ℝ) := by
    have := List.length_pos.mpr hne
    exact_mod_cast this
  exact div_pos (List.sum_pos l hpos hne) hlen

lemma list_sum_const (l : List ℝ) (c : ℝ) (h : ∀ x ∈ l, x = c) :
    l.sum = l.length * c := by
  induction l with
  | nil => simp
  | cons a t ih =>
    have ha : a = c := h a (by simp)
    have ht : ∀ x ∈ t, x = c := fun x hx => h x (by simp [hx])
    simp [ha, ih ht]
    ring

lemma listMean_const (l : List ℝ) (c : ℝ) (hne : l ≠ []) (h : ∀ x ∈ l, x = c) :
    listMean l = c := by
  have hlen : (l.length : ℝ) ≠ 0 :=
    Nat.cast_ne_zero.mpr (List.length_pos.mpr hne).ne'
  rw [listMean, list_sum_const l c h, mul_comm, mul_div_assoc, div_self hlen,
    mul_one]

lemma listStd_const (l : List ℝ) (c : ℝ) (hne : l ≠ []) (h : ∀ x ∈ l, x = c) :
    listStd l = 0 := by
  have hm := listMean_const l c hne h
  have hz : (l.map (fun x => (x - listMean l) ^ 2)).sum = 0 := by
    apply List.sum_eq_zero
    intro x hx
    obtain ⟨y, hy, rfl⟩ := List.mem_map.mp hx
    rw [hm, h y hy]
    ring
  rw [listStd, hz, zero_div, Real.sqrt_zero]

/-- C1 counterexample: on the lap times `[90, 110]` the code's coefficient
is `max(0, 1 − 10·(σ/μ)) = max(0, 1 − 10·0.1) = 0`, while the claimed
formula `1 − σ/μ` clamped to `[0,1]` gives `0.9`; the two disagree because
the source multiplies the coefficient of variation by 10. -/
theorem c1_counterexample :
    calculate_consistency_coefficient [(90 : ℝ), 110] ≠
      spec_consistency_coefficient [(90 : ℝ), 110] := by
  rw [calculate_consistency_coefficient, spec_consistency_coefficient,
    listStd_pair, listMean_pair, if_neg (by norm_num)]
  norm_num

/-- C1 (amended): for at least two positive lap times, the coefficient
equals `1 − 10·(stddev/mean)` clamped to `[0,1]` (the upper clamp is
vacuous: the source writes `max(0.0, 1.0 - cv*10)`, and with a positive
mean `1 - cv*10 ≤ 1` always holds). -/
theorem c1_amended_holds (l : List ℝ) (h2 : 2 ≤ l.length)
    (hpos : ∀ x ∈ l, 0 < x) :
    calculate_consistency_coefficient l =
      min 1 (max 0 (1 - listStd l / listMean l * 10)) := by
  have hne : l ≠ [] := by
    intro hnil
    rw [hnil] at h2
    simp at h2
  have hcv : 0 ≤ listStd l / listMean l * 10 :=
    mul_nonneg (div_nonneg (Real.sqrt_nonneg _) (listMean_pos l hne hpos).le)
      (by norm_num)
  rw [calculate_consistency_coefficient, if_neg (by omega), min_eq_right]
  exact max_le (by norm_num) (by linarith)

/-- Witness for C1 at the lap times `[90, 110]`. -/
theorem c1_witness :
    2 ≤ ([(90 : ℝ), 110]).length ∧
    calculate_consistency_coefficient [(90 : ℝ), 110] =
      min 1 (max 0 (1 - listStd [(90 : ℝ), 110] / listMean [(90 : ℝ), 110] * 10)) :=
  ⟨by norm_num,
   c1_amended_holds [(90 : ℝ), 110] (by norm_num)
     (by
       intro x hx
       simp at hx
       rcases hx with rfl | rfl <;> norm_num)⟩

/-- C6 counterexample: the claim quantifies over every list of lap times,
but on `[-90, -110]` (negative mean) the code returns `2 > 1`, outside
`[0,1]`; and the single-element constant stream `[90]` returns `0`, not
`1.0` (the `len < 2` guard). -/
theorem c6_counterexample :
    1 < calculate_consistency_coefficient [(-90 : ℝ), -110] ∧
    calculate_consistency_coefficient [(90 : ℝ)] ≠ 1 := by
  constructor
  · rw [calculate_consistency_coefficient, listStd_pair, listMean_pair,
      if_neg (by norm_num)]
    norm_num
  · rw [calculate_consistency_coefficient, if_pos (by norm_num)]
    norm_num

/-- C6 (amended): for every list of positive lap times the coefficient lies
in `[0,1]`, and every stream of at least two equal positive lap times
yields exactly `1`. -/
theorem c6_amended (l : List ℝ) (hpos : ∀ x ∈ l, 0 < x) :
    (0 ≤ calculate_consistency_coefficient l ∧
      calculate_consistency_coefficient l ≤ 1) ∧
    (2 ≤ l.length → (∀ x ∈ l, ∀ y ∈ l, x = y) →
      calculate_consistency_coefficient l = 1) := by
  constructor
  · by_cases hl : l.length < 2
    · rw [calculate_consistency_coefficient, if_pos hl]
      norm_num
    · have hne : l ≠ [] := by
        intro hnil
        rw [hnil] at hl
        simp at hl
      have hcv : 0 ≤ listStd l / listMean l * 10 :=
        mul_nonneg
          (div_nonneg (Real.sqrt_nonneg _) (listMean_pos l hne hpos).le)
          (by norm_num)
      rw [calculate_consistency_coefficient, if_neg hl]
      exact ⟨le_max_left _ _, max_le (by norm_num) (by linarith)⟩
  · intro h2 hconst
    match l, h2 with
    | a :: t, _ =>
      have hc : ∀ x ∈ a :: t, x = a := fun x hx => hconst x hx a (by simp)
      have hstd : listStd (a :: t) = 0 := listStd_const _ a (by simp) hc
      rw [calculate_consistency_coefficient, if_neg (by omega), hstd]
      norm_num

/-- Witness for C6 at the constant positive stream `[90, 90]`. -/
theorem c6_witness :
    (0 ≤ calculate_consistency_coefficient [(90 : ℝ), 90] ∧
      calculate_consistency_coefficient [(90 : ℝ), 90] ≤ 1) ∧
    calculate_consistency_coefficient [(90 : ℝ), 90] = 1 := by
  have hpos : ∀ x ∈ [(90 : ℝ), 90], 0 < x := by
    intro x hx
    simp at hx
    subst hx
    norm_num
  have h := c6_amended [(90 : ℝ), 90] hpos
  refine ⟨h.1, h.2 (by norm_num) ?_⟩
  intro x hx y hy
  simp at hx hy
  rw [hx, hy]

/-! ### Segmenter helper lemmas -/

lemma spanScan_mem (thr : ℚ) (m : ℕ) :
    ∀ (l : List ℚ) (i : ℕ) (st : Option ℕ) (p : ℕ × ℕ),
      p ∈ spanScan thr m l i st →
      spanLo st i ≤ p.1 ∧ p.1 < p.2 ∧ m < p.2 - p.1 := by
  intro l
  induction l with
  | nil =>
    intro i st p hp
    simp [spanScan] at hp
  | cons a rest ih =>
    intro i st p hp
    cases st with
    | none =>
      rw [spanScan] at hp
      split at hp
      · have := ih (i + 1) (some i) p hp
        simp [spanLo] at this ⊢
        omega
      · have := ih (i + 1) none p hp
        simp [spanLo] at this ⊢
        omega
    | some s =>
      rw [spanScan] at hp
      split at hp
      · split at hp
        · rcases List.mem_cons.mp hp with rfl | hmem
          · simp [spanLo]
            omega
          · have := ih (i + 1) none p hmem
            simp [spanLo] at this ⊢
            omega
        · have := ih (i + 1) none p hp
          simp [spanLo] at this ⊢
          omega
      · have := ih (i + 1) (some s) p hp
        simp [spanLo] at this ⊢
        omega

lemma spanScan_pairwise (thr : ℚ) (m : ℕ) :
    ∀ (l : List ℚ) (i : ℕ) (st : Option ℕ),
      List.Pairwise (fun p q : ℕ × ℕ => p.2 < q.1) (spanScan thr m l i st) := by
  intro l
  induction l with
  | nil =>
    intro i st
    simp [spanScan]
  | cons a rest ih =>
    intro i st
    cases st with
    | none =>
      rw [spanScan]
      split
      · exact ih (i + 1) (some i)
      · exact ih (i + 1) none
    | some s =>
      rw [spanScan]
      split
      · split
        · refine List.Pairwise.cons ?_ (ih (i + 1) none)
          intro q hq
          have := (spanScan_mem thr m rest (i + 1) none q hq).1
          simp [spanLo] at this
          omega
        · exact ih (i + 1) none
      · exact ih (i + 1) (some s)

lemma pairwise_filterMap {α β : Type} {R : α → α → Prop} {S : β → β → Prop}
    (f : α → Option β)
    (hf : ∀ a b, R a b → ∀ c, f a = some c → ∀ d, f b = some d → S c d) :
    ∀ {l : List α}, List.Pairwise R l → List.Pairwise S (l.filterMap f) := by
  intro l hl
  induction hl with
  | nil => simp
  | @cons a t ha ht ih =>
    rw [List.filterMap_cons]
    cases hfa : f a with
    | none => exact ih
    | some b =>
      refine List.Pairwise.cons ?_ ih
      intro d hd
      obtain ⟨x, hx, hfx⟩ := List.mem_filterMap.mp hd
      exact hf a x (ha x hx) b hfa d hfx

lemma analyze_corner_section_idx (speed g : List ℚ) (s e : ℕ) (c : CornerData)
    (h : analyze_corner_section speed g s e = some c) :
    c.startIdx = s ∧ c.endIdx = e := by
  rw [analyze_corner_section] at h
  split at h
  · rw [Option.some.injEq] at h
    subst h
    exact ⟨rfl, rfl⟩
  · exact absurd h (by simp)

lemma analyze_braking_zone_idx (speed bp lg : List ℚ) (s e : ℕ)
    (z : BrakingZoneData)
    (h : analyze_braking_zone speed bp lg s e = some z) :
    z.startIdx = s ∧ z.endIdx = e := by
  rw [analyze_braking_zone] at h
  split at h
  · rw [Option.some.injEq] at h
    subst h
    exact ⟨rfl, rfl⟩
  · exact absurd h (by simp)

/-- C7: for every sample stream and configuration, every emitted corner
segment and braking zone has end index strictly greater than start index
and duration (`end − start`) at least the configured minimum span, and no
two corner segments of one stream overlap (each ends strictly before the
next starts). -/
theorem c7_invariants (speed lateral_g brake_pressure longitudinal_g : List ℚ)
    (thrC thrB : ℚ) (mC mB : ℕ) :
    (∀ c ∈ identify_corners speed lateral_g thrC mC,
        c.startIdx < c.endIdx ∧ mC ≤ c.endIdx - c.startIdx) ∧
    List.Pairwise (fun c d : CornerData => c.endIdx < d.startIdx)
      (identify_corners speed lateral_g thrC mC) ∧
    (∀ z ∈ identify_braking_zones speed brake_pressure longitudinal_g thrB mB,
        z.startIdx < z.endIdx ∧ mB ≤ z.endIdx - z.startIdx) := by
  refine ⟨?_, ?_, ?_⟩
  · intro c hc
    rw [identify_corners] at hc
    obtain ⟨p, hp, hfc⟩ := List.mem_filterMap.mp hc
    obtain ⟨h1, h2⟩ := analyze_corner_section_idx _ _ _ _ _ hfc
    have hm := spanScan_mem thrC mC lateral_g 0 none p hp
    rw [h1, h2]
    omega
  · rw [identify_corners]
    refine pairwise_filterMap _ ?_ (spanScan_pairwise thrC mC lateral_g 0 none)
    intro p q hpq c hc d hd
    obtain ⟨_, hc2⟩ := analyze_corner_section_idx _ _ _ _ _ hc
    obtain ⟨hd1, _⟩ := analyze_corner_section_idx _ _ _ _ _ hd
    rw [hc2, hd1]
    exact hpq
  · intro z hz
    rw [identify_braking_zones] at hz
    obtain ⟨p, hp, hfz⟩ := List.mem_filterMap.mp hz
    obtain ⟨h1, h2⟩ := analyze_braking_zone_idx _ _ _ _ _ _ hfz
    have hm := spanScan_mem thrB mB brake_pressure 0 none p hp
    rw [h1, h2]
    omega

/-- Witness for C7: on the concrete streams above, the emitted corner
`(2,5)` and braking zone `(2,6)` satisfy the invariants. -/
theorem c7_witness :
    ((⟨2, 5, 80, 60, 70, 3/5, 3⟩ : CornerData).startIdx <
        (⟨2, 5, 80, 60, 70, 3/5, 3⟩ : CornerData).endIdx ∧
      2 ≤ (⟨2, 5, 80, 60, 70, 3/5, 3⟩ : CornerData).endIdx -
        (⟨2, 5, 80, 60, 70, 3/5, 3⟩ : CornerData).startIdx) ∧
    ((⟨2, 6, 80, 90, 50, 1, 80, 4⟩ : BrakingZoneData).startIdx <
        (⟨2, 6, 80, 90, 50, 1, 80, 4⟩ : BrakingZoneData).endIdx ∧
      3 ≤ (⟨2, 6, 80, 90, 50, 1, 80, 4⟩ : BrakingZoneData).endIdx -
        (⟨2, 6, 80, 90, 50, 1, 80, 4⟩ : BrakingZoneData).startIdx) := by
  have hspanC : spanScan (3/10) 2 c7_lateral 0 none = [(2, 5)] := by
    norm_num [spanScan, c7_lateral]
  have hspanB : spanScan 10 3 c7_brake 0 none = [(2, 6)] := by
    norm_num [spanScan, c7_brake]
  have hanC : analyze_corner_section c7_speed c7_lateral 2 5 =
      some ⟨2, 5, 80, 60, 70, 3/5, 3⟩ := by
    norm_num [analyze_corner_section, c7_speed, c7_lateral, List.getLastD]
  have hanB : analyze_braking_zone c7_speed c7_brake c7_longG 2 6 =
      some ⟨2, 6, 80, 90, 50, 1, 80, 4⟩ := by
    norm_num [analyze_braking_zone, c7_speed, c7_brake, c7_longG,
      List.getLastD]
  have hcorners : identify_corners c7_speed c7_lateral (3/10) 2 =
      [⟨2, 5, 80, 60, 70, 3/5, 3⟩] := by
    rw [identify_corners, hspanC]
    simp [hanC]
  have hzones : identify_braking_zones c7_speed c7_brake c7_longG 10 3 =
      [⟨2, 6, 80, 90, 50, 1, 80, 4⟩] := by
    rw [identify_braking_zones, hspanB]
    simp [hanB]
  have h := c7_invariants c7_speed c7_lateral c7_brake c7_longG (3/10) 10 2 3
  exact ⟨h.1 _ (by rw [hcorners]; exact List.mem_singleton.mpr rfl),
    h.2.2 _ (by rw [hzones]; exact List.mem_singleton.mpr rfl)⟩

/-- C4 (code bug): on the lateral-G sequence `[0,0,0.5,0.6,0.4,0.2,0,0]`
with entry threshold `0.3`, the threshold machine does find the span
`(2, 5)` that the scenario expects when the minimum span is the
stipulated 2 (first conjunct) — but the source hard-codes the emission
check `i - corner_start > 5`, and at that constant the span of length 3 is
rejected, so `_identify_corners` emits no corner segment at all, whatever
the accompanying speed stream (second conjunct). -/
theorem c4_bug_eval :
    spanScan (3/10) 2 c4_lateral_g 0 none = [(2, 5)] ∧
    ∀ speed : List ℚ, identify_corners speed c4_lateral_g (3/10) 5 = [] := by
  constructor
  · norm_num [spanScan, c4_lateral_g]
  · intro speed
    have hs : spanScan (3/10) 5 c4_lateral_g 0 none = [] := by
      norm_num [spanScan, c4_lateral_g]
    rw [identify_corners, hs]
    rfl

/-- C10: the class filter `min_speed <= entry_speed <= max_speed` is
inclusive at both ends, so a corner whose entry speed sits exactly on a
shared boundary (60, 100, 150 or 200 km/h) is counted in the statistics of
both adjacent classes, and the per-class counts can sum to more than the
total number of corners. -/
theorem c10_inclusive :
    (∀ (corners : List CornerData) (c : CornerData), c ∈ corners →
      ((c.entry_speed = 60 → c ∈ cornersOfType corners 0 60 ∧
          c ∈ cornersOfType corners 60 100) ∧
       (c.entry_speed = 100 → c ∈ cornersOfType corners 60 100 ∧
          c ∈ cornersOfType corners 100 150) ∧
       (c.entry_speed = 150 → c ∈ cornersOfType corners 100 150 ∧
          c ∈ cornersOfType corners 150 200) ∧
       (c.entry_speed = 200 → c ∈ cornersOfType corners 150 200 ∧
          c ∈ cornersOfType corners 200 300))) ∧
    (∃ corners : List CornerData, corners.length < classCountSum corners) := by
  constructor
  · intro corners c hc
    refine ⟨fun he => ⟨?_, ?_⟩, fun he => ⟨?_, ?_⟩, fun he => ⟨?_, ?_⟩,
      fun he => ⟨?_, ?_⟩⟩ <;>
      · rw [cornersOfType]
        refine List.mem_filter.mpr ⟨hc, ?_⟩
        rw [he]
        norm_num
  · refine ⟨[⟨0, 6, 60, 50, 55, 1, 6⟩], ?_⟩
    norm_num [classCountSum, corner_types, cornersOfType]

/-- Witness for C10: a single corner with entry speed exactly 60 is a
member of both the hairpin class (0–60) and the slow class (60–100). -/
theorem c10_witness :
    (⟨0, 6, 60, 50, 55, 1, 6⟩ : CornerData) ∈
        cornersOfType [⟨0, 6, 60, 50, 55, 1, 6⟩] 0 60 ∧
    (⟨0, 6, 60, 50, 55, 1, 6⟩ : CornerData) ∈
        cornersOfType [⟨0, 6, 60, 50, 55, 1, 6⟩] 60 100 :=
  (c10_inclusive.1 [⟨0, 6, 60, 50, 55, 1, 6⟩] ⟨0, 6, 60, 50, 55, 1, 6⟩
      (List.mem_singleton.mpr rfl)).1 rfl
